import Mathlib

/-!
# Verification of the `pyvista` examples repository

This development shallowly embeds the two example scripts of the repository,

* `examples/00-load/read-parallel.py`  (module body, 12 top-level statements)
* `examples/02-plot/anti-aliasing.py`  (module body, 24 top-level statements)

as lists of statements of a small Python-fragment AST, together with an
executable interpreter.  External calls (the visualization library, the
filesystem, standard output) are modelled through an oracle that decides, for
each external call in execution order, whether the call returns or raises.
Values returned by external calls are opaque objects identified by the index
of the call that produced them; the only locally computed values are the
strings produced by `os.path.join`, which is embedded after CPython's
`posixpath.join`.
-/

/-- A Python exception, identified by its message/class name. -/
inductive PyErr where
  | err (msg : String)
  deriving DecidableEq, Repr

/-- The callee of a call expression, as written in the source:
a module-level function (`examples.download_bunny`, `os.path.join`, ...),
a method on a local variable (`mesh.plot`, `pl.add_mesh`, ...),
or a builtin (`print`). -/
inductive Callee where
  | modFn (moduleName fn : String)
  | method (objName fn : String)
  | builtin (fn : String)
  deriving DecidableEq, Repr

/-- Runtime values flowing through the scripts.  Values returned by external
calls are opaque (`obj id`, where `id` is the index of the external call that
produced them).  `cposVal` keeps the numeric literal tokens of the
camera-position list verbatim. -/
inductive Val where
  | obj (id : Nat)
  | str (s : String)
  | bool (b : Bool)
  | int (n : Int)
  | cposVal (l : List (String × String × String))
  | pyNone
  deriving DecidableEq, Repr

/-- The external boundaries an effect can go through. -/
inductive Boundary where
  | vistaLib
  | filesystem
  | stdout
  deriving DecidableEq, Repr

/-- An observable effect performed during a run: an external call (with the
receiver value for method calls, evaluated arguments, evaluated keyword
arguments, the returned value and the boundary it crossed), or an attribute
assignment on a library object (`pl.camera_position = cpos`). -/
inductive Event where
  | call (callee : Callee) (recv : Option Val) (args : List Val)
      (kwargs : List (String × Val)) (result : Val) (boundary : Boundary)
  | setAttr (recv : Val) (attrName : String) (value : Val)
  deriving DecidableEq, Repr

/-- Expressions of the embedded Python fragment. -/
inductive PyExpr where
  | name (x : String)
  | strLit (s : String)
  | boolLit (b : Bool)
  | intLit (n : Int)
  | moduleAttr (moduleName attrName : String)
  | cposLit (l : List (String × String × String))
  | callE (callee : Callee) (args : List PyExpr) (kwargs : List (String × PyExpr))

/-- Top-level statements of the embedded Python fragment. -/
inductive Stmt where
  | importModule (moduleName : String)
  | importFrom (moduleName memberName : String)
  | assign (target : String) (rhs : PyExpr)
  | exprStmt (e : PyExpr)
  | attrAssign (objName attrName : String) (rhs : PyExpr)

/-- `examples/00-load/read-parallel.py`, statement by statement:
```
09: import vista
10: from vista import examples
11: import os
18: examples.download_blood_vessels()
27: path = os.path.join(vista.EXAMPLES_PATH, 'blood_vessels')
28: print(os.listdir(path))
31: print(os.listdir(os.path.join(path, 'T0000000500')))
37: filename = os.path.join(path, 'T0000000500.pvtu')
38: mesh = vista.read(filename)
39: print(mesh)
43: mesh.plot(scalars='node_value', categories=True)
47: mesh.plot(scalars='density')
```
-/
def readParallelStmts : List Stmt :=
  [ .importModule "vista",
    .importFrom "vista" "examples",
    .importModule "os",
    .exprStmt (.callE (.modFn "examples" "download_blood_vessels") [] []),
    .assign "path" (.callE (.modFn "os.path" "join")
      [.moduleAttr "vista" "EXAMPLES_PATH", .strLit "blood_vessels"] []),
    .exprStmt (.callE (.builtin "print")
      [.callE (.modFn "os" "listdir") [.name "path"] []] []),
    .exprStmt (.callE (.builtin "print")
      [.callE (.modFn "os" "listdir")
        [.callE (.modFn "os.path" "join") [.name "path", .strLit "T0000000500"] []] []] []),
    .assign "filename" (.callE (.modFn "os.path" "join")
      [.name "path", .strLit "T0000000500.pvtu"] []),
    .assign "mesh" (.callE (.modFn "vista" "read") [.name "filename"] []),
    .exprStmt (.callE (.builtin "print") [.name "mesh"] []),
    .exprStmt (.callE (.method "mesh" "plot") []
      [("scalars", .strLit "node_value"), ("categories", .boolLit true)]),
    .exprStmt (.callE (.method "mesh" "plot") [] [("scalars", .strLit "density")]) ]

/-- The camera-position literal of `anti-aliasing.py` (line 38), tokens kept
verbatim. -/
def aaCpos : List (String × String × String) :=
  [ ("-0.08566", "0.18735", "0.20116"),
    ("-0.05332", "0.12168", "-0.01215"),
    ("-0.00151", "0.95566", "-0.29446") ]

/-- `examples/02-plot/anti-aliasing.py`, statement by statement:
```
27: import pyvista as pv
28: from pyvista import examples
30: bunny = examples.download_bunny()
38: cpos = [(-0.08566, 0.18735, 0.20116), (-0.05332, 0.12168, -0.01215), (-0.00151, 0.95566, -0.29446)]
40: pl = pv.Plotter()
41: pl.add_mesh(bunny, show_edges=True)
42: pl.disable_anti_aliasing()
43: pl.camera_position = cpos
44: pl.show()
56: pl = pv.Plotter()
57: pl.add_mesh(bunny, show_edges=True)
58: pl.enable_anti_aliasing('fxaa')
59: pl.camera_position = cpos
60: pl.show()
74: pl = pv.Plotter()
75: pl.add_mesh(bunny, show_edges=True)
76: pl.enable_anti_aliasing('mxaa')
77: pl.camera_position = cpos
78: pl.show()
91: pl = pv.Plotter()
92: pl.add_mesh(bunny, show_edges=True, line_width=2)
93: pl.enable_anti_aliasing('ssaa')
94: pl.camera_position = cpos
95: pl.show()
```
-/
def antiAliasingStmts : List Stmt :=
  [ .importModule "pyvista",
    .importFrom "pyvista" "examples",
    .assign "bunny" (.callE (.modFn "examples" "download_bunny") [] []),
    .assign "cpos" (.cposLit aaCpos),
    -- no anti-aliasing (lines 40-44)
    .assign "pl" (.callE (.modFn "pv" "Plotter") [] []),
    .exprStmt (.callE (.method "pl" "add_mesh") [.name "bunny"] [("show_edges", .boolLit true)]),
    .exprStmt (.callE (.method "pl" "disable_anti_aliasing") [] []),
    .attrAssign "pl" "camera_position" (.name "cpos"),
    .exprStmt (.callE (.method "pl" "show") [] []),
    -- FXAA (lines 56-60)
    .assign "pl" (.callE (.modFn "pv" "Plotter") [] []),
    .exprStmt (.callE (.method "pl" "add_mesh") [.name "bunny"] [("show_edges", .boolLit true)]),
    .exprStmt (.callE (.method "pl" "enable_anti_aliasing") [.strLit "fxaa"] []),
    .attrAssign "pl" "camera_position" (.name "cpos"),
    .exprStmt (.callE (.method "pl" "show") [] []),
    -- MSAA (lines 74-78)
    .assign "pl" (.callE (.modFn "pv" "Plotter") [] []),
    .exprStmt (.callE (.method "pl" "add_mesh") [.name "bunny"] [("show_edges", .boolLit true)]),
    .exprStmt (.callE (.method "pl" "enable_anti_aliasing") [.strLit "mxaa"] []),
    .attrAssign "pl" "camera_position" (.name "cpos"),
    .exprStmt (.callE (.method "pl" "show") [] []),
    -- SSAA (lines 91-95)
    .assign "pl" (.callE (.modFn "pv" "Plotter") [] []),
    .exprStmt (.callE (.method "pl" "add_mesh") [.name "bunny"]
      [("show_edges", .boolLit true), ("line_width", .intLit 2)]),
    .exprStmt (.callE (.method "pl" "enable_anti_aliasing") [.strLit "ssaa"] []),
    .attrAssign "pl" "camera_position" (.name "cpos"),
    .exprStmt (.callE (.method "pl" "show") [] []) ]

/-! ## Syntactic analysis -/

/-- Recursion depth bound for walking nested expressions.  The deepest nesting
in either script is `print(os.listdir(os.path.join(...)))`, depth 3. -/
def exprFuel : Nat := 10

/-- All callees occurring in an expression, in evaluation order (arguments
before the enclosing call, as Python evaluates them). -/
def calleesExpr : Nat → PyExpr → List Callee
  | 0, _ => []
  | n + 1, .callE c args kwargs =>
      ((args.map (calleesExpr n)).flatten) ++
      (((kwargs.map Prod.snd).map (calleesExpr n)).flatten) ++ [c]
  | _ + 1, _ => []

/-- All callees occurring in a statement. -/
def calleesStmt : Stmt → List Callee
  | .importModule _ => []
  | .importFrom _ _ => []
  | .assign _ e => calleesExpr exprFuel e
  | .exprStmt e => calleesExpr exprFuel e
  | .attrAssign _ _ e => calleesExpr exprFuel e

/-- All callees occurring in a script, in textual/evaluation order. -/
def scriptCallees (stmts : List Stmt) : List Callee :=
  (stmts.map calleesStmt).flatten

/-- The boundary an effectful callee goes through; `none` for the one pure
library call (`os.path.join`). -/
def boundaryOf : Callee → Option Boundary
  | .modFn "os.path" "join" => Option.none
  | .modFn "os" "listdir" => some .filesystem
  | .builtin "print" => some .stdout
  | .modFn "examples" _ => some .vistaLib
  | .modFn "vista" _ => some .vistaLib
  | .modFn "pv" _ => some .vistaLib
  | .method _ _ => some .vistaLib
  | _ => Option.none

/-- The boundaries of all effects a statement performs directly, in order; an
attribute assignment on a library object is itself a library effect. -/
def stmtEffects : Stmt → List Boundary
  | .importModule _ => []
  | .importFrom _ _ => []
  | .assign _ e => (calleesExpr exprFuel e).filterMap boundaryOf
  | .exprStmt e => (calleesExpr exprFuel e).filterMap boundaryOf
  | .attrAssign _ _ e => (calleesExpr exprFuel e).filterMap boundaryOf ++ [.vistaLib]

/-- The boundaries of all effects a script performs directly, in order. -/
def scriptEffects (stmts : List Stmt) : List Boundary :=
  (stmts.map stmtEffects).flatten

/-- The three stages of the example pipeline described by the specification:
fetch a sample dataset, read a file, plot/render. -/
inductive Stage where
  | fetch
  | read
  | plot
  deriving DecidableEq, Repr

/-- Stage classification of a callee: dataset download helpers are stage (a),
the library file reader is stage (b), plotter construction/configuration and
rendering are stage (c). -/
def stageOfCallee : Callee → Option Stage
  | .modFn "examples" "download_blood_vessels" => some .fetch
  | .modFn "examples" "download_bunny" => some .fetch
  | .modFn "vista" "read" => some .read
  | .modFn "pv" "read" => some .read
  | .modFn "pv" "Plotter" => some .plot
  | .method _ f =>
      if ["plot", "add_mesh", "show", "enable_anti_aliasing",
          "disable_anti_aliasing"].contains f
      then some .plot else Option.none
  | _ => Option.none

/-- The stages touched by a statement, in order; setting the camera position
on a plotter belongs to the plot stage. -/
def stmtStages : Stmt → List Stage
  | .importModule _ => []
  | .importFrom _ _ => []
  | .assign _ e => (calleesExpr exprFuel e).filterMap stageOfCallee
  | .exprStmt e => (calleesExpr exprFuel e).filterMap stageOfCallee
  | .attrAssign _ a e =>
      (calleesExpr exprFuel e).filterMap stageOfCallee ++
      (if a == "camera_position" then [.plot] else [])

/-- The stage sequence of a script, in textual/evaluation order. -/
def stagesOf (stmts : List Stmt) : List Stage :=
  (stmts.map stmtStages).flatten

/-- `fetch` precedes `read` precedes `plot`. -/
def stageLe : Stage → Stage → Bool
  | .fetch, _ => true
  | .read, .fetch => false
  | .read, _ => true
  | .plot, .plot => true
  | .plot, _ => false

/-- The stage sequence is non-decreasing. -/
def stagesMonotone : List Stage → Bool
  | [] => true
  | [_] => true
  | a :: b :: rest => stageLe a b && stagesMonotone (b :: rest)

/-- The three-stage pipeline property claimed for each script: the script
contains a fetch call, a read call and a plot call, and its stage sequence is
non-decreasing (fetch, then read, then plot). -/
def stagePipeline (stmts : List Stmt) : Bool :=
  (stagesOf stmts).contains .fetch &&
  (stagesOf stmts).contains .read &&
  (stagesOf stmts).contains .plot &&
  stagesMonotone (stagesOf stmts)

/-! ## Operational model -/

/-- One step of CPython's `posixpath.join` loop: `join` resets on an absolute
component, appends directly after an empty path or a trailing separator, and
inserts `/` otherwise. -/
def joinOne (path b : String) : String :=
  if b.startsWith "/" then b
  else if path == "" || path.endsWith "/" then path ++ b
  else path ++ "/" ++ b

/-- CPython's `posixpath.join a *p`. -/
def osPathJoin (a : String) (ps : List String) : String :=
  ps.foldl joinOne a

/-- The interpreter state: variable bindings (newest first), the index of the
next external call, the effects performed so far, the indices of the top-level
statements completed so far, and the index of the current statement. -/
structure St where
  env : List (String × Val)
  nextCall : Nat
  events : List Event
  executed : List Nat
  pc : Nat
  deriving DecidableEq, Repr

/-- The initial state. -/
def st0 : St := ⟨[], 0, [], [], 0⟩

/-- The environment of external behaviour: for each external call, in
execution order, whether it returns or raises. -/
def Oracle : Type := Nat → Except PyErr Unit

/-- The oracle under which every external call returns. -/
def okOracle : Oracle := fun _ => .ok ()

/-- Look a variable up in the environment. -/
def lookupVar (env : List (String × Val)) (x : String) : Option Val :=
  (env.find? (fun p => p.1 == x)).map Prod.snd

/-- Evaluate the receiver of a call: a method call looks its object up in the
environment (raising `NameError` if absent), other calls have no receiver. -/
def recvOf (st : St) : Callee → Except (PyErr × St) (Option Val)
  | .method objName _ =>
      match lookupVar st.env objName with
      | some v => .ok (some v)
      | Option.none => .error (.err "NameError", st)
  | _ => .ok Option.none

/-- Require a run-time value to be a string (`os.path.join` raises `TypeError`
on anything else). -/
def asStr : Val → Option String
  | .str s => some s
  | _ => Option.none

/-- Perform a call whose receiver, arguments and keyword arguments are already
evaluated.  The pure call `os.path.join` computes a string locally; every
boundary-crossing call consults the oracle: if the oracle says the call
raises, the exception is returned as is; otherwise the call returns a fresh
opaque object (`print` returns `None`) and the effect is recorded. -/
def doCall (o : Oracle) (c : Callee) (recv : Option Val) (argVals : List Val)
    (kwVals : List (String × Val)) (st : St) : Except (PyErr × St) (Val × St) :=
  match boundaryOf c with
  | Option.none =>
      match c with
      | .modFn "os.path" "join" =>
          match argVals with
          | .str a :: rest =>
              match rest.mapM asStr with
              | some strs => .ok (.str (osPathJoin a strs), st)
              | Option.none => .error (.err "TypeError", st)
          | _ => .error (.err "TypeError", st)
      | _ => .error (.err "TypeError", st)
  | some b =>
      match o st.nextCall with
      | .error e => .error (e, st)
      | .ok _ =>
          let res := if c = .builtin "print" then Val.pyNone else Val.obj st.nextCall
          .ok (res, { st with
            nextCall := st.nextCall + 1,
            events := st.events ++ [.call c recv argVals kwVals res b] })

/-- Evaluate an expression: receiver first, then positional arguments left to
right, then keyword arguments left to right, then the call itself, as CPython
does.  The fuel bounds the nesting depth. -/
def evalExpr (ep : String) (o : Oracle) : Nat → PyExpr → St → Except (PyErr × St) (Val × St)
  | 0, _, st => .error (.err "RecursionError", st)
  | n + 1, e, st =>
    match e with
    | .name x =>
        match lookupVar st.env x with
        | some v => .ok (v, st)
        | Option.none => .error (.err "NameError", st)
    | .strLit s => .ok (.str s, st)
    | .boolLit b => .ok (.bool b, st)
    | .intLit i => .ok (.int i, st)
    | .moduleAttr "vista" "EXAMPLES_PATH" => .ok (.str ep, st)
    | .moduleAttr _ _ => .error (.err "AttributeError", st)
    | .cposLit l => .ok (.cposVal l, st)
    | .callE c args kwargs => do
        let recv ← recvOf st c
        let (argVals, st1) ← args.foldlM
          (fun (acc : List Val × St) a => do
            let (v, st') ← evalExpr ep o n a acc.2
            pure (acc.1 ++ [v], st'))
          ([], st)
        let (kwVals, st2) ← kwargs.foldlM
          (fun (acc : List (String × Val) × St) kv => do
            let (v, st') ← evalExpr ep o n kv.2 acc.2
            pure (acc.1 ++ [(kv.1, v)], st'))
          ([], st1)
        doCall o c recv argVals kwVals st2

/-- Execute one top-level statement.  Imports are binding-only; an assignment
binds its target; an expression statement discards the value; an attribute
assignment on a library object evaluates the right-hand side, looks the
object up, and performs the (library-boundary, oracle-checked) attribute set,
recording it as an effect. -/
def execStmt (ep : String) (o : Oracle) : Stmt → St → Except (PyErr × St) St
  | .importModule _, st => .ok st
  | .importFrom _ _, st => .ok st
  | .assign x e, st => do
      let (v, st') ← evalExpr ep o exprFuel e st
      .ok { st' with env := (x, v) :: st'.env }
  | .exprStmt e, st => do
      let (_, st') ← evalExpr ep o exprFuel e st
      .ok st'
  | .attrAssign objName attrName e, st => do
      let (v, st') ← evalExpr ep o exprFuel e st
      match lookupVar st'.env objName with
      | Option.none => .error (.err "NameError", st')
      | some recv =>
          match o st'.nextCall with
          | .error e' => .error (e', st')
          | .ok _ => .ok { st' with
              nextCall := st'.nextCall + 1,
              events := st'.events ++ [.setAttr recv attrName v] }

deriving instance DecidableEq for Except

/-- The result of running a script: the final state (on an exception, the
state at the raise) and either success or the propagated exception. -/
structure RunResult where
  finalSt : St
  result : Except PyErr Unit
  deriving DecidableEq, Repr

/-- Run a list of statements in order.  A statement that raises stops the run
immediately: the exception becomes the run's result unchanged, and no further
statement is executed. -/
def runFrom (ep : String) (o : Oracle) : List Stmt → St → RunResult
  | [], st => ⟨st, .ok ()⟩
  | s :: rest, st =>
      match execStmt ep o s st with
      | .error (e, st') => ⟨st', .error e⟩
      | .ok st' => runFrom ep o rest
          { st' with executed := st'.executed ++ [st'.pc], pc := st'.pc + 1 }

/-- Run `read-parallel.py` with the library's examples directory at `ep`. -/
def runRP (ep : String) (o : Oracle) : RunResult :=
  runFrom ep o readParallelStmts st0

/-- Run `anti-aliasing.py` (it never reads `EXAMPLES_PATH`). -/
def runAA (o : Oracle) : RunResult :=
  runFrom "" o antiAliasingStmts st0

/-! ## Further analysis definitions used by the claims -/

/-- Continue a run with `l2` after the outcome of a first segment: a failed
segment short-circuits. -/
def seqRun (ep : String) (o : Oracle) (l2 : List Stmt) : RunResult → RunResult
  | ⟨st, .ok _⟩ => runFrom ep o l2 st
  | r => r

/-- The bare function name of a callee. -/
def calleeFn : Callee → String
  | .modFn _ f => f
  | .method _ f => f
  | .builtin f => f

/-- A one-level view of an argument expression, for syntactic call-site
inspection. -/
inductive ArgView where
  | vStr (s : String)
  | vBool (b : Bool)
  | vInt (n : Int)
  | vName (x : String)
  | vAttr (moduleName attrName : String)
  | vCposList
  | vNested
  deriving DecidableEq, Repr

/-- View an argument expression one level deep. -/
def argViewOf : PyExpr → ArgView
  | .name x => .vName x
  | .strLit s => .vStr s
  | .boolLit b => .vBool b
  | .intLit n => .vInt n
  | .moduleAttr m a => .vAttr m a
  | .cposLit _ => .vCposList
  | .callE _ _ _ => .vNested

/-- All call sites in an expression, in evaluation order, each with the
one-level views of its positional and keyword arguments. -/
def callSites : Nat → PyExpr → List (Callee × List ArgView × List (String × ArgView))
  | 0, _ => []
  | n + 1, .callE c args kwargs =>
      ((args.map (callSites n)).flatten) ++
      (((kwargs.map Prod.snd).map (callSites n)).flatten) ++
      [(c, args.map argViewOf, kwargs.map (fun kv => (kv.1, argViewOf kv.2)))]
  | _ + 1, _ => []

/-- All call sites in a statement. -/
def stmtCallSites : Stmt → List (Callee × List ArgView × List (String × ArgView))
  | .importModule _ => []
  | .importFrom _ _ => []
  | .assign _ e => callSites exprFuel e
  | .exprStmt e => callSites exprFuel e
  | .attrAssign _ _ e => callSites exprFuel e

/-- All call sites in a script, in textual/evaluation order. -/
def scriptCallSites (stmts : List Stmt) : List (Callee × List ArgView × List (String × ArgView)) :=
  (stmts.map stmtCallSites).flatten

/-- Callees that create threads, processes, coroutine tasks, or perform
shared-resource coordination (locks, channels, cancellation), as named by the
Python standard library and common async APIs. -/
def isConcurrencyCallee : Callee → Bool
  | .modFn m f =>
      ["threading", "multiprocessing", "asyncio", "concurrent",
       "concurrent.futures", "_thread", "subprocess"].contains m ||
      ["Thread", "Process", "Pool", "Popen", "create_task", "ensure_future",
       "run_coroutine_threadsafe", "fork", "spawn", "system", "Lock", "RLock",
       "Semaphore", "Condition", "Barrier", "Queue"].contains f
  | .method _ f =>
      ["start", "join", "acquire", "release", "submit", "map_async",
       "apply_async", "cancel", "put", "get_nowait", "task_done"].contains f
  | .builtin _ => false

/-- Callees that write or persist state (file creation/writing, deletion,
renaming, serialization). -/
def isWriteCallee : Callee → Bool
  | c => ["open", "write", "writelines", "save", "mkdir", "makedirs", "remove",
          "unlink", "rmdir", "rename", "replace", "dump", "to_file",
          "write_text", "write_bytes"].contains (calleeFn c)

/-- Callees that would parse, merge, or consistency-check mesh pieces
locally. -/
def isMeshProcessingCallee : Callee → Bool
  | c => ["merge", "combine", "append", "clean", "validate", "assemble",
          "parse", "cast_to_unstructured_grid", "partition",
          "connectivity"].contains (calleeFn c)

/-- The `.pvtu` path the read-parallel script builds:
`os.path.join(os.path.join(EXAMPLES_PATH, 'blood_vessels'), 'T0000000500.pvtu')`,
i.e. the variadic join of the three components. -/
def pvtuPath (ep : String) : String :=
  osPathJoin ep ["blood_vessels", "T0000000500.pvtu"]

/-- The exception used by the error-propagation witness. -/
def connError : PyErr := .err "ConnectionError"

/-- An oracle under which every external call raises. -/
def failOracle : Oracle := fun _ => .error connError

/-- The three import statements opening `read-parallel.py`. -/
def rpImports : List Stmt := readParallelStmts.take 3

/-- The dataset download statement of `read-parallel.py` (line 18). -/
def rpDownloadStmt : Stmt :=
  .exprStmt (.callE (.modFn "examples" "download_blood_vessels") [] [])

/-- The statements of `read-parallel.py` after the download call. -/
def rpAfterDownload : List Stmt := readParallelStmts.drop 4

/-- The interpreter state after the three imports of `read-parallel.py`. -/
def stImports : St := ⟨[], 0, [], [0, 1, 2], 3⟩

/-- The data-flow facts of claim C9 about a run of `read-parallel.py`:
the download statement is a bare expression statement, its result `obj 0` is
bound to no variable (the final environment holds only `mesh = obj 5`,
`filename` and `path`), the mesh that is printed (external call 6) and
plotted (external calls 7 and 8) is exactly `obj 5`, the value returned by
the `vista.read` call (external call 5), the two plot calls carry the scalars
arguments `'node_value'`/`categories=True` and `'density'`, and the two plot
events are the adjacent last two effects of the run (no repository operation
touches the mesh between them). -/
def rpMeshFlow (ep : String) (o : Oracle) : Prop :=
  readParallelStmts[3]? = some rpDownloadStmt ∧
  (runRP ep o).finalSt.events[0]? =
    some (.call (.modFn "examples" "download_blood_vessels") Option.none [] [] (.obj 0) .vistaLib) ∧
  (runRP ep o).finalSt.env.map Prod.snd =
    [.obj 5, .str (pvtuPath ep), .str (osPathJoin ep ["blood_vessels"])] ∧
  (runRP ep o).finalSt.events[5]? =
    some (.call (.modFn "vista" "read") Option.none [.str (pvtuPath ep)] [] (.obj 5) .vistaLib) ∧
  (runRP ep o).finalSt.events[6]? =
    some (.call (.builtin "print") Option.none [.obj 5] [] .pyNone .stdout) ∧
  (runRP ep o).finalSt.events[7]? =
    some (.call (.method "mesh" "plot") (some (.obj 5)) []
      [("scalars", .str "node_value"), ("categories", .bool true)] (.obj 7) .vistaLib) ∧
  (runRP ep o).finalSt.events[8]? =
    some (.call (.method "mesh" "plot") (some (.obj 5)) []
      [("scalars", .str "density")] (.obj 8) .vistaLib) ∧
  (runRP ep o).finalSt.events.length = 9

/-- The comparability facts of claim C10 about a run of `anti-aliasing.py`.
External calls are numbered 0..20; the four plotters are the objects
`obj 1`, `obj 6`, `obj 11`, `obj 16`.  The conjuncts state: the four
`add_mesh` calls all receive the same mesh `obj 0` (the downloaded bunny) and
the same `show_edges=True`, with `line_width=2` added only in the SSAA block;
the four camera assignments write the same literal `cpos` triple to the four
plotters; the anti-aliasing configuration calls are exactly one `disable`
followed by `enable('fxaa')`, `enable('mxaa')`, `enable('ssaa')`; each
plotter's camera is set by the effect immediately preceding that plotter's
`show()`; and the run performs exactly 21 effects. -/
def aaComparable (o : Oracle) : Prop :=
  ((runAA o).finalSt.events.filterMap (fun ev =>
      match ev with
      | .call (.method _ "add_mesh") recv args kwargs _ _ => some (recv, args, kwargs)
      | _ => Option.none)) =
    [ (some (.obj 1), [.obj 0], [("show_edges", .bool true)]),
      (some (.obj 6), [.obj 0], [("show_edges", .bool true)]),
      (some (.obj 11), [.obj 0], [("show_edges", .bool true)]),
      (some (.obj 16), [.obj 0], [("show_edges", .bool true), ("line_width", .int 2)]) ] ∧
  ((runAA o).finalSt.events.filterMap (fun ev =>
      match ev with
      | .setAttr recv a v => some (recv, a, v)
      | _ => Option.none)) =
    [ (.obj 1, "camera_position", .cposVal aaCpos),
      (.obj 6, "camera_position", .cposVal aaCpos),
      (.obj 11, "camera_position", .cposVal aaCpos),
      (.obj 16, "camera_position", .cposVal aaCpos) ] ∧
  ((runAA o).finalSt.events.filterMap (fun ev =>
      match ev with
      | .call (.method _ "enable_anti_aliasing") recv args _ _ _ => some (recv, args)
      | .call (.method _ "disable_anti_aliasing") recv args _ _ _ => some (recv, args)
      | _ => Option.none)) =
    [ (some (.obj 1), []), (some (.obj 6), [.str "fxaa"]),
      (some (.obj 11), [.str "mxaa"]), (some (.obj 16), [.str "ssaa"]) ] ∧
  (runAA o).finalSt.events[4]? = some (.setAttr (.obj 1) "camera_position" (.cposVal aaCpos)) ∧
  (runAA o).finalSt.events[5]? =
    some (.call (.method "pl" "show") (some (.obj 1)) [] [] (.obj 5) .vistaLib) ∧
  (runAA o).finalSt.events[9]? = some (.setAttr (.obj 6) "camera_position" (.cposVal aaCpos)) ∧
  (runAA o).finalSt.events[10]? =
    some (.call (.method "pl" "show") (some (.obj 6)) [] [] (.obj 10) .vistaLib) ∧
  (runAA o).finalSt.events[14]? = some (.setAttr (.obj 11) "camera_position" (.cposVal aaCpos)) ∧
  (runAA o).finalSt.events[15]? =
    some (.call (.method "pl" "show") (some (.obj 11)) [] [] (.obj 15) .vistaLib) ∧
  (runAA o).finalSt.events[19]? = some (.setAttr (.obj 16) "camera_position" (.cposVal aaCpos)) ∧
  (runAA o).finalSt.events[20]? =
    some (.call (.method "pl" "show") (some (.obj 16)) [] [] (.obj 20) .vistaLib) ∧
  (runAA o).finalSt.events.length = 21

/-- The facts of claim C4 about `read-parallel.py`: the script contains
exactly one read-stage call; its only pure (non-boundary) calls are the three
`os.path.join` path computations; no callee is a local piece-parsing, merging
or consistency-checking routine; and the single read effect (external call 5)
is `vista.read` applied to exactly the `.pvtu` path. -/
def rpSingleRead (ep : String) (o : Oracle) : Prop :=
  ((scriptCallees readParallelStmts).filter
    (fun c => stageOfCallee c == some Stage.read)).length = 1 ∧
  ((scriptCallees readParallelStmts).filter
    (fun c => boundaryOf c == (Option.none : Option Boundary))) =
    [.modFn "os.path" "join", .modFn "os.path" "join", .modFn "os.path" "join"] ∧
  (scriptCallees readParallelStmts).all (fun c => !isMeshProcessingCallee c) = true ∧
  (runRP ep o).finalSt.events[5]? =
    some (.call (.modFn "vista" "read") Option.none [.str (pvtuPath ep)] [] (.obj 5) .vistaLib)

/-- The facts of claim C7 about complete runs: both scripts execute each of
their top-level statements exactly once, in textual order, and finish
successfully. -/
def straightLineRuns (ep : String) (o : Oracle) : Prop :=
  (runRP ep o).finalSt.executed = List.range readParallelStmts.length ∧
  (runRP ep o).result = .ok () ∧
  (runAA o).finalSt.executed = List.range antiAliasingStmts.length ∧
  (runAA o).result = .ok ()

/-- The facts of claim C8 about `read-parallel.py`: the local path
computation binds `path` to `join(EXAMPLES_PATH, 'blood_vessels')` and
`filename` to the variadic join of `EXAMPLES_PATH`, `'blood_vessels'` and
`'T0000000500.pvtu'`, and the filename passed to the `vista.read` call is
exactly that join. -/
def rpFilenameJoin (ep : String) (o : Oracle) : Prop :=
  lookupVar (runRP ep o).finalSt.env "path" =
    some (.str (osPathJoin ep ["blood_vessels"])) ∧
  lookupVar (runRP ep o).finalSt.env "filename" = some (.str (pvtuPath ep)) ∧
  (runRP ep o).finalSt.events[5]? =
    some (.call (.modFn "vista" "read") Option.none [.str (pvtuPath ep)] [] (.obj 5) .vistaLib)

/-! ## Claims -/

/-- Auxiliary: running a concatenation of statement lists runs the first
part, and continues with the second only if the first succeeded. -/
theorem runFrom_append (ep : String) (o : Oracle) (l1 l2 : List Stmt) (st : St) :
    runFrom ep o (l1 ++ l2) st = seqRun ep o l2 (runFrom ep o l1 st) := by
  induction l1 generalizing st with
  | nil => rfl
  | cons s rest ih =>
      simp only [List.cons_append, runFrom]
      cases h : execStmt ep o s st with
      | error p => cases p; rfl
      | ok st' => exact ih _

/-- Claim C1 (counterexample): the anti-aliasing script invokes no library
read function anywhere — its stage sequence contains no read stage — so the
claimed three-stage pipeline (fetch, then read, then plot, in each of the two
scripts) fails on `anti-aliasing.py`. -/
theorem antiAliasing_lacks_read_stage :
    (stagesOf antiAliasingStmts).contains .read = false ∧
    stagePipeline antiAliasingStmts = false := by decide

/-- Claim C1 (amended): `read-parallel.py` performs all three stages in order
(fetch, then read, then plot); `anti-aliasing.py` performs a fetch and then
only plot-stage calls, in order, with no separate read call (its download
call returns the mesh directly). -/
theorem pipeline_stages_amended :
    stagePipeline readParallelStmts = true ∧
    (stagesOf antiAliasingStmts).contains .fetch = true ∧
    (stagesOf antiAliasingStmts).contains .plot = true ∧
    stagesMonotone (stagesOf antiAliasingStmts) = true ∧
    (stagesOf antiAliasingStmts).contains .read = false := by decide

/-- Claim C2: neither script contains error handling, retry, or
failure-recovery logic: whenever, in a run of either script, a statement
raises an exception after a successfully executed prefix, the run returns
that exception unchanged to the caller, with the final state exactly the
state at the raise — no later statement executes and no further effect is
performed. -/
theorem error_propagates_unchanged (ep : String) (o : Oracle)
    (stmts l1 l2 : List Stmt) (s : Stmt) (st st' : St) (e : PyErr)
    (hscript : stmts = readParallelStmts ∨ stmts = antiAliasingStmts)
    (hsplit : stmts = l1 ++ s :: l2)
    (hpre : runFrom ep o l1 st0 = ⟨st, .ok ()⟩)
    (hfail : execStmt ep o s st = .error (e, st')) :
    runFrom ep o stmts st0 = ⟨st', .error e⟩ := by
  subst hsplit
  rw [runFrom_append, hpre]
  show runFrom ep o (s :: l2) st = ⟨st', .error e⟩
  simp only [runFrom, hfail]

/-- Witness for claim C2: under an oracle whose external calls all raise
`ConnectionError`, `read-parallel.py` executes its three imports, fails at
the download statement, and the whole run stops there with `ConnectionError`
propagated unchanged. -/
theorem error_propagates_witness :
    (readParallelStmts = rpImports ++ rpDownloadStmt :: rpAfterDownload ∧
     runFrom "/ex" failOracle rpImports st0 = ⟨stImports, .ok ()⟩ ∧
     execStmt "/ex" failOracle rpDownloadStmt stImports = .error (connError, stImports)) ∧
    runFrom "/ex" failOracle readParallelStmts st0 = ⟨stImports, .error connError⟩ :=
  ⟨⟨rfl, rfl, rfl⟩,
   error_propagates_unchanged "/ex" failOracle readParallelStmts rpImports rpAfterDownload
     rpDownloadStmt stImports stImports connError (Or.inl rfl) rfl rfl rfl⟩

/-- Claim C3 (counterexample): the read-parallel script's `print` calls write
to standard output, an external effect that goes through neither the
visualization library's API nor the filesystem, so the claimed two-boundary
frame is violated. -/
theorem stdout_effect_cex :
    Boundary.stdout ∈ scriptEffects readParallelStmts ∧
    Boundary.stdout ≠ Boundary.vistaLib ∧ Boundary.stdout ≠ Boundary.filesystem := by
  decide

/-- Claim C3 (amended): every external effect of the two scripts goes through
exactly three boundaries — the visualization library's API, the local
filesystem, and standard output (`print`); the only filesystem effects are
the two read-only `os.listdir` calls, and no callee writes or persists any
state of its own. -/
theorem effects_three_boundaries :
    (scriptEffects readParallelStmts ++ scriptEffects antiAliasingStmts).all
      (fun b => b == Boundary.vistaLib || b == Boundary.filesystem ||
                b == Boundary.stdout) = true ∧
    (scriptCallees readParallelStmts ++ scriptCallees antiAliasingStmts).all
      (fun c => !isWriteCallee c) = true ∧
    ((scriptCallees readParallelStmts ++ scriptCallees antiAliasingStmts).filter
      (fun c => boundaryOf c == some Boundary.filesystem)) =
      [.modFn "os" "listdir", .modFn "os" "listdir"] := by decide

/-- Claim C4: reading the multi-piece parallel mesh is a single call into the
library's reader applied to the `.pvtu` path: `read-parallel.py` contains
exactly one read-stage call, its argument is exactly the joined `.pvtu` path,
the only local (pure) computations are the `os.path.join` calls, and no
callee parses, merges or consistency-checks mesh pieces. -/
theorem single_read_call (ep : String) (o : Oracle) (hok : ∀ k, o k = .ok ()) :
    rpSingleRead ep o := by
  have h : o = okOracle := funext hok
  subst h
  exact ⟨by decide, by decide, by decide, rfl⟩

/-- Witness for claim C4, at `EXAMPLES_PATH = "/data"` and the
all-calls-return oracle. -/
theorem single_read_call_witness :
    okOracle 0 = .ok () ∧ rpSingleRead "/data" okOracle :=
  ⟨rfl, single_read_call "/data" okOracle (fun _ => rfl)⟩

/-- Claim C5: the anti-aliasing script passes exactly the mode strings
`'fxaa'`, `'mxaa'` and `'ssaa'`, each as the single (string-literal) argument
of one `enable_anti_aliasing` call, and makes exactly one
`disable_anti_aliasing` call for the baseline rendering; no other mode string
occurs. -/
theorem anti_aliasing_modes :
    (scriptCallSites antiAliasingStmts).filterMap
      (fun t => if calleeFn t.1 == "enable_anti_aliasing"
                then some t.2.1 else Option.none) =
      [[.vStr "fxaa"], [.vStr "mxaa"], [.vStr "ssaa"]] ∧
    ((scriptCallSites antiAliasingStmts).filter
      (fun t => calleeFn t.1 == "disable_anti_aliasing")).length = 1 := by decide

/-- Claim C6: no callee anywhere in either script is a thread-, process- or
coroutine-creating primitive, nor any lock/channel/cancellation operation;
the scripts' execution model (a sequential fold over the statement list) has
no concurrent task to create. -/
theorem no_concurrency :
    (scriptCallees readParallelStmts ++ scriptCallees antiAliasingStmts).all
      (fun c => !isConcurrencyCallee c) = true := by decide

/-- Claim C7: both scripts are straight-line code: in every run in which all
external calls return, each top-level statement executes exactly once, in
textual order, and the run terminates successfully. -/
theorem straight_line (ep : String) (o : Oracle) (hok : ∀ k, o k = .ok ()) :
    straightLineRuns ep o := by
  have h : o = okOracle := funext hok
  subst h
  exact ⟨rfl, rfl, rfl, rfl⟩

/-- Witness for claim C7, at `EXAMPLES_PATH = "/srv"` and the
all-calls-return oracle. -/
theorem straight_line_witness :
    okOracle 0 = .ok () ∧ straightLineRuns "/srv" okOracle :=
  ⟨rfl, straight_line "/srv" okOracle (fun _ => rfl)⟩

/-- Claim C8: for every value of the library's `EXAMPLES_PATH`, the filename
passed to the read call equals the variadic `os.path.join` of
`EXAMPLES_PATH`, `'blood_vessels'` and `'T0000000500.pvtu'`; the local path
computation depends on nothing but `EXAMPLES_PATH`. -/
theorem filename_is_examples_join (ep : String) (o : Oracle)
    (hok : ∀ k, o k = .ok ()) :
    rpFilenameJoin ep o := by
  have h : o = okOracle := funext hok
  subst h
  exact ⟨rfl, rfl, rfl⟩

/-- Witness for claim C8, at `EXAMPLES_PATH = "/opt/vista/examples"` and the
all-calls-return oracle. -/
theorem filename_join_witness :
    okOracle 0 = .ok () ∧ rpFilenameJoin "/opt/vista/examples" okOracle :=
  ⟨rfl, filename_is_examples_join "/opt/vista/examples" okOracle (fun _ => rfl)⟩

/-- Claim C9: in `read-parallel.py` the download's return value is discarded
(the download is a bare expression statement and its result is bound to no
variable), while the mesh that is printed and plotted is exactly the object
returned by the `vista.read` call; it is plotted twice, first with
`scalars='node_value', categories=True` and then with `scalars='density'`,
and the two plot effects are adjacent and last — no repository operation
touches the mesh between them. -/
theorem mesh_flow (ep : String) (o : Oracle) (hok : ∀ k, o k = .ok ()) :
    rpMeshFlow ep o := by
  have h : o = okOracle := funext hok
  subst h
  exact ⟨rfl, rfl, rfl, rfl, rfl, rfl, rfl, rfl⟩

/-- Witness for claim C9, at `EXAMPLES_PATH = "/home/u/examples"` and the
all-calls-return oracle. -/
theorem mesh_flow_witness :
    okOracle 0 = .ok () ∧ rpMeshFlow "/home/u/examples" okOracle :=
  ⟨rfl, mesh_flow "/home/u/examples" okOracle (fun _ => rfl)⟩

/-- Claim C10: in `anti-aliasing.py` all four renderings are two-run
comparable: each of the four plotters receives the same mesh object (the
downloaded bunny) via `add_mesh`, each has its camera position set to the
same fixed `cpos` triple immediately before its `show()`, and across the
four renderings only the anti-aliasing configuration (and, in the SSAA
block, the `line_width` argument) differs. -/
theorem renderings_comparable (o : Oracle) (hok : ∀ k, o k = .ok ()) :
    aaComparable o := by
  have h : o = okOracle := funext hok
  subst h
  unfold aaComparable
  decide

/-- Witness for claim C10, at the all-calls-return oracle. -/
theorem renderings_comparable_witness :
    okOracle 0 = .ok () ∧ aaComparable okOracle :=
  ⟨rfl, renderings_comparable okOracle (fun _ => rfl)⟩
